import Mathlib

/-!
Verification of the paginated table-synchronization logic of the Supabase
migration scripts (`migrate_cloud_to_local.py` and `supabase_toolkit.py`).

The Python functions are shallowly embedded as Lean definitions: row records
are an opaque type parameter, the remote stores are represented by the data
they would return (a catalog listing, a list of rows per table, an outcome per
count query), and each function's user-visible behaviour (returned values,
printed classifications, issued fetch ranges and insert calls) is recorded in
the result of the corresponding Lean function.
-/

namespace Migration

/-! ## String ordering

Python's `sorted` compares strings lexicographically by code point.  This is
the lexicographic order on the underlying character list, `String.data`; we
use that order directly since it is the one Python's comparison implements. -/

/-- Lexicographic (code-point) order on strings, the order used by Python's
`sorted`. -/
def strLe (a b : String) : Prop := a.data ≤ b.data

instance : DecidableRel strLe :=
  fun a b => inferInstanceAs (Decidable (a.data ≤ b.data))

instance : IsTrans String strLe := ⟨fun _ _ _ h₁ h₂ => le_trans h₁ h₂⟩

instance : IsTotal String strLe := ⟨fun a b => le_total a.data b.data⟩

/-! ## Table Lister (`get_tables`, migrate_cloud_to_local.py lines 99-133) -/

/-- One row of the `information_schema.tables` catalog response, as consumed
by `get_tables`: a `(table_schema, table_name)` pair. -/
structure CatalogRow where
  table_schema : String
  table_name : String
deriving DecidableEq

/-- The qualified name built by `get_tables` (line 121):
`f"{schema}.{table_name}" if schema != 'public' else table_name`. -/
def qualifiedName (r : CatalogRow) : String :=
  if r.table_schema = "public" then r.table_name
  else r.table_schema ++ "." ++ r.table_name

/-- The `EXCLUDE_PATTERNS` constant (lines 29-38).  Every pattern in the
source is a regex of the shape `'^literal'`; `re.search('^literal', s)`
succeeds exactly when `s` starts with the literal, so each pattern is stored
here as its literal and matching is prefix testing on the character lists. -/
def EXCLUDE_PATTERNS : List String :=
  ["pg_", "sql_", "_", "storage", "realtime", "supabase", "auth", "extensions"]

/-- `any(re.search(pattern, full_name) for pattern in EXCLUDE_PATTERNS)`
(line 124). -/
def matchesExclude (name : String) : Bool :=
  EXCLUDE_PATTERNS.any (fun p => p.data.isPrefixOf name.data)

/-- `get_tables` (lines 110-129): map each catalog row to its qualified name,
skip the rows matching an exclude pattern, and return `sorted(tables)`.
Python's `sorted` is modelled by a stable sort under `strLe`; an empty
response (line 112-114) is the empty catalog. -/
def get_tables (catalog : List CatalogRow) : List String :=
  List.insertionSort strLe ((catalog.map qualifiedName).filter (fun n => !matchesExclude n))

/-! ## Row Counter (`get_table_counts`, lines 135-142) -/

/-- Outcome of the `select("*", count='exact')` call issued by
`get_table_counts`: either a response whose `count` attribute is an optional
number, or a raised exception carrying a message. -/
inductive CountFetch where
  | ok (count : Option Nat)
  | err (msg : String)
deriving DecidableEq

/-- `get_table_counts` (lines 135-142): on success `return result.count or 0`
(Python's `or` turns both `None` and `0` into `0`, i.e. a missing count
becomes `0`); on any exception the function prints a warning and
`return -1`. -/
def get_table_counts : CountFetch → Int
  | .ok none => 0
  | .ok (some n) => (n : Int)
  | .err _ => -1

/-- The rendering used by `show_tables` (line 178):
`count if count >= 0 else 'Error'`. -/
def renderCount (c : Int) : String :=
  if 0 ≤ c then toString c else "Error"

/-! ## Drift Comparator (`compare_tables`, lines 144-167) -/

/-- The four statuses printed by `compare_tables` (lines 158-165). -/
inductive TableStatus where
  | onlyLocal
  | onlyCloud
  | inSync
  | diverged (cloudCount localCount : Int)
deriving DecidableEq

/-- The per-table classification of `compare_tables` (lines 158-165):
membership tests come first, so the count comparison on line 162 is reached
only for tables present in both lists.  `cloudCount`/`localCount` give the
value `get_table_counts` returns for the table on each side (the `"N/A"`
placeholders of lines 155-156 are only ever printed, never compared, because
the membership branches fire first). -/
def classifyTable (cloudTables localTables : List String)
    (cloudCount localCount : String → Int) (t : String) : TableStatus :=
  if t ∉ cloudTables then TableStatus.onlyLocal
  else if t ∉ localTables then TableStatus.onlyCloud
  else if cloudCount t = localCount t then TableStatus.inSync
  else TableStatus.diverged (cloudCount t) (localCount t)

/-- `compare_tables` (lines 144-167): iterate over
`sorted(set(cloud_tables + local_tables))` and print each table with its
classification. -/
def compare_tables (cloudTables localTables : List String)
    (cloudCount localCount : String → Int) : List (String × TableStatus) :=
  (List.insertionSort strLe (cloudTables ++ localTables).dedup).map
    (fun t => (t, classifyTable cloudTables localTables cloudCount localCount t))

/-! ## Paginated Copier (`migrate_table`, migrate_cloud_to_local.py lines 57-97)

The source table is the list `src` of its rows; the fetch
`.range(start, start + page_size - 1)` (line 70) returns
`(src.drop start).take page_size`, so the loop is embedded with the remaining
suffix `rest = src.drop start` alongside the cursor `start`.  Per-row insert
success is given by the oracle `ok`; a failing insert is caught on lines
83-85 (a printed warning, modelled as an entry of `failures`) and the loop
continues with the next row.  The `sleep(0.1)` of line 91 and the progress
prints have no data effect and are not modelled. -/

/-- `page_size = 1000` (line 61). -/
def pageSize : Nat := 1000

/-- The observable behaviour of one `migrate_table` run: the inclusive ranges
requested from the source, the number of insert calls issued (`attempted`),
the returned `total_inserted` counter, and the rows whose insert raised (one
printed warning each, lines 83-85). -/
structure CopyResult (α : Type) where
  fetchRanges : List (Nat × Nat)
  attempted : Nat
  inserted : Nat
  failures : List α
deriving DecidableEq

/-- The `while True` loop of `migrate_table` (lines 64-95) over the remaining
rows `rest = src.drop start`: fetch the page `rest.take pageSize`; an empty
page breaks the loop (line 75-76); otherwise every row of the page gets an
insert call, successes increment `total_inserted`, failures are caught and
recorded, and the loop repeats at `start + page_size` (line 88).  There is no
short-page check: only an empty page (or a fetch error, not modelled here)
ends the loop. -/
def migrateLoop {α : Type} (ok : α → Bool) (rest : List α) (start : Nat) :
    CopyResult α :=
  if h : (rest.take pageSize).isEmpty then
    { fetchRanges := [(start, start + pageSize - 1)],
      attempted := 0, inserted := 0, failures := [] }
  else
    let tail := migrateLoop ok (rest.drop pageSize) (start + pageSize)
    { fetchRanges := (start, start + pageSize - 1) :: tail.fetchRanges,
      attempted := (rest.take pageSize).length + tail.attempted,
      inserted := ((rest.take pageSize).filter ok).length + tail.inserted,
      failures := (rest.take pageSize).filter (fun r => !ok r) ++ tail.failures }
termination_by rest.length
decreasing_by
  simp only [List.isEmpty_eq_true, List.take_eq_nil_iff, pageSize] at h
  have hne : rest ≠ [] := by
    intro he
    exact h (Or.inr he)
  have hlen : 0 < rest.length := List.length_pos.mpr hne
  simp only [List.length_drop, pageSize]
  omega

/-- `migrate_table` (lines 57-97): run the pagination loop from cursor 0. -/
def migrate_table {α : Type} (ok : α → Bool) (src : List α) : CopyResult α :=
  migrateLoop ok src 0

/-! ## Migration Orchestrator (`migrate_all_tables`, lines 197-223) -/

/-- Python's `str.strip` on the character list (whitespace removed from both
ends), used to model `confirm.strip()` (line 207). -/
def pyStrip (s : List Char) : List Char :=
  ((s.dropWhile Char.isWhitespace).reverse.dropWhile Char.isWhitespace).reverse

/-- The confirmation test of line 207-208:
`input(...).strip().lower() == 'y'`. -/
def isAffirmative (confirm : String) : Bool :=
  (pyStrip confirm.data).map Char.toLower == ['y']

/-- What one `migrate_table(...)` call inside the orchestrator's `try` block
(line 216) does for a table: either return normally with its activity, or
raise (caught on lines 218-220), carrying the activity performed before the
exception escaped. -/
inductive TableOutcome where
  | ok (result : CopyResult Nat)
  | err (msg : String) (partialResult : CopyResult Nat)

/-- Insert calls issued during one per-table outcome. -/
def outcomeCalls : TableOutcome → Nat
  | .ok r => r.attempted
  | .err _ p => p.attempted

/-- Rows successfully inserted during one per-table outcome. -/
def outcomeInserted : TableOutcome → Nat
  | .ok r => r.inserted
  | .err _ p => p.inserted

/-- The observable behaviour of one `migrate_all_tables` run: the returned
boolean, the tables for which a copy was started, the total insert calls and
successful inserts on the target, and whether the final
`"Migration completed!"` line (line 222) was printed. -/
structure MigrationReport where
  success : Bool
  tablesAttempted : List String
  insertCalls : Nat
  rowsInserted : Nat
  completionReported : Bool
deriving DecidableEq

/-- `migrate_all_tables` (lines 197-223): an empty table list returns `False`
(lines 199-201); a confirmation answer whose `strip().lower()` is not `'y'`
returns `False` before any copy (lines 207-210); otherwise every table is
processed in order — a per-table exception is caught and skipped (lines
215-220) — the completion line is printed unconditionally and `True` is
returned. -/
def migrate_all_tables (run : String → TableOutcome) (tables : List String)
    (confirm : String) : MigrationReport :=
  if tables.isEmpty then
    { success := false, tablesAttempted := [], insertCalls := 0,
      rowsInserted := 0, completionReported := false }
  else if !isAffirmative confirm then
    { success := false, tablesAttempted := [], insertCalls := 0,
      rowsInserted := 0, completionReported := false }
  else
    { success := true,
      tablesAttempted := tables,
      insertCalls := (tables.map (fun t => outcomeCalls (run t))).sum,
      rowsInserted := (tables.map (fun t => outcomeInserted (run t))).sum,
      completionReported := true }

/-! ## Per-table counting loop of `list_tables_with_counts`
(supabase_toolkit.py lines 117-139)

The store's successive responses are given page-by-page: `pages i` is the
`response.data` for the fetch `.range(i * batch_size, i * batch_size + batch_size - 1)`
issued in iteration `i` (the cursor `start` only ever advances by
`batch_size`).  The loop is embedded with explicit fuel since, as written,
its termination depends on the responses; every theorem below evaluates it
with sufficient fuel. -/

/-- `batch_size = 1000` (line 120). -/
def batchSize : Nat := 1000

/-- `max_empty_batches = 3` (line 122). -/
def maxEmptyBatches : Nat := 3

/-- The `while True` counting loop (lines 125-139), returning
`some (total, fetches)` where `total` is the counted rows and `fetches` the
number of range requests issued, or `none` if the fuel runs out.  Control
flow as in the source: an empty page increments `empty_batches` and breaks
once it reaches `max_empty_batches`; a nonempty page adds its length to
`total` and resets `empty_batches`; afterwards `len(rows) < batch_size`
breaks (lines 137-138); otherwise the cursor advances. -/
def countLoop {α : Type} (pages : Nat → List α) :
    Nat → Nat → Nat → Nat → Option (Nat × Nat)
  | 0, _, _, _ => none
  | fuel + 1, i, total, emptyBatches =>
    let rows := pages i
    if rows.isEmpty then
      if maxEmptyBatches ≤ emptyBatches + 1 then some (total, i + 1)
      else if rows.length < batchSize then some (total, i + 1)
      else countLoop pages fuel (i + 1) total (emptyBatches + 1)
    else
      if rows.length < batchSize then some (total + rows.length, i + 1)
      else countLoop pages fuel (i + 1) (total + rows.length) 0

/-- The counting loop as started for one table (lines 119-124):
`total = 0`, `start = 0`, `empty_batches = 0`. -/
def countRowsPaginated {α : Type} (pages : Nat → List α) (fuel : Nat) :
    Option (Nat × Nat) :=
  countLoop pages fuel 0 0 0

/-! ## Theorems -/

/-- C5: `compare_tables` classifies each table of the sorted union by
membership first — target-only when absent from the cloud list, source-only
when absent from the local list — and only for tables present in both lists
compares the two counts, yielding in-sync on equality and diverged (showing
both counts) otherwise; a table present on one side only never reaches the
count-equality branch. -/
theorem compare_tables_classification (cloud loc : List String)
    (cc lc : String → Int) (t : String) :
    (t ∉ cloud → t ∈ loc →
      classifyTable cloud loc cc lc t = TableStatus.onlyLocal) ∧
    (t ∈ cloud → t ∉ loc →
      classifyTable cloud loc cc lc t = TableStatus.onlyCloud) ∧
    (t ∈ cloud → t ∈ loc → cc t = lc t →
      classifyTable cloud loc cc lc t = TableStatus.inSync) ∧
    (t ∈ cloud → t ∈ loc → cc t ≠ lc t →
      classifyTable cloud loc cc lc t = TableStatus.diverged (cc t) (lc t)) ∧
    ((t ∉ cloud ∨ t ∉ loc) →
      classifyTable cloud loc cc lc t = TableStatus.onlyLocal ∨
      classifyTable cloud loc cc lc t = TableStatus.onlyCloud) ∧
    (∀ s, (t, s) ∈ compare_tables cloud loc cc lc →
      s = classifyTable cloud loc cc lc t) := by
  refine ⟨?_, ?_, ?_, ?_, ?_, ?_⟩
  · intro h1 _
    simp [classifyTable, h1]
  · intro h1 h2
    simp [classifyTable, h1, h2]
  · intro h1 h2 h3
    simp [classifyTable, h1, h2, h3]
  · intro h1 h2 h3
    simp [classifyTable, h1, h2, h3]
  · intro h
    rcases h with h | h
    · left
      simp [classifyTable, h]
    · by_cases hc : t ∈ cloud
      · right
        simp [classifyTable, hc, h]
      · left
        simp [classifyTable, hc]
  · intro s hs
    simp only [compare_tables, List.mem_map, Prod.mk.injEq] at hs
    obtain ⟨x, _, hx1, hx2⟩ := hs
    rw [← hx2, hx1]

/-- Witness for C5 at the spec's scenario (source `{a, b}`, target `{b, c}`,
`b` counted 5 on both sides) plus a diverged instance. -/
theorem compare_tables_classification_witness :
    classifyTable ["a", "b"] ["b", "c"]
      (fun t => if t = "a" then 10 else 5) (fun t => if t = "b" then 5 else 3)
      "c" = TableStatus.onlyLocal ∧
    classifyTable ["a", "b"] ["b", "c"]
      (fun t => if t = "a" then 10 else 5) (fun t => if t = "b" then 5 else 3)
      "a" = TableStatus.onlyCloud ∧
    classifyTable ["a", "b"] ["b", "c"]
      (fun t => if t = "a" then 10 else 5) (fun t => if t = "b" then 5 else 3)
      "b" = TableStatus.inSync ∧
    classifyTable ["d"] ["d"] (fun _ => 1) (fun _ => 2) "d" =
      TableStatus.diverged 1 2 :=
  ⟨(compare_tables_classification _ _ _ _ "c").1 (by decide) (by decide),
   (compare_tables_classification _ _ _ _ "a").2.1 (by decide) (by decide),
   (compare_tables_classification _ _ _ _ "b").2.2.1 (by decide) (by decide)
     (by decide),
   (compare_tables_classification _ _ _ _ "d").2.2.2.1 (by decide) (by decide)
     (by decide)⟩

/-- C6: `get_table_counts` always returns a value — a non-negative count on
success and the sentinel `-1` when the count cannot be determined — and
`show_tables` renders the sentinel (as `Error`) distinctly from a true zero
count. -/
theorem get_table_counts_unknown (f : CountFetch) :
    (0 ≤ get_table_counts f ∨ get_table_counts f = -1) ∧
    (∀ m, get_table_counts (CountFetch.err m) = -1) ∧
    (∀ m, renderCount (get_table_counts (CountFetch.err m)) ≠ renderCount 0) := by
  refine ⟨?_, fun m => rfl, ?_⟩
  case refine_2 =>
    intro m
    rw [show get_table_counts (CountFetch.err m) = -1 from rfl]
    decide
  cases f with
  | ok c =>
    cases c with
    | none => exact Or.inl le_rfl
    | some n => exact Or.inl (Int.ofNat_nonneg n)
  | err m => exact Or.inr rfl

/-- C10: when counting fails on both sides for a table present in both lists,
both sides return the same sentinel `-1`, the sentinels compare equal, and
`compare_tables` classifies the table as in-sync. -/
theorem compare_tables_error_sentinel (cloud loc : List String)
    (t mc ml : String) (hc : t ∈ cloud) (hl : t ∈ loc) :
    get_table_counts (CountFetch.err mc) = -1 ∧
    get_table_counts (CountFetch.err ml) = -1 ∧
    classifyTable cloud loc (fun _ => get_table_counts (CountFetch.err mc))
      (fun _ => get_table_counts (CountFetch.err ml)) t = TableStatus.inSync := by
  refine ⟨rfl, rfl, ?_⟩
  simp [classifyTable, hc, hl, get_table_counts]

/-- Witness for C10: table `a` is in both lists and both count queries fail. -/
theorem compare_tables_error_sentinel_witness :
    ("a" ∈ ["a"]) ∧ ("a" ∈ ["a", "b"]) ∧
    classifyTable ["a"] ["a", "b"]
      (fun _ => get_table_counts (CountFetch.err "network"))
      (fun _ => get_table_counts (CountFetch.err "timeout")) "a" =
      TableStatus.inSync :=
  ⟨by decide, by decide,
   (compare_tables_error_sentinel ["a"] ["a", "b"] "a" "network" "timeout"
     (by decide) (by decide)).2.2⟩

/-- C7: no name returned by `get_tables` matches any exclude pattern: every
returned name fails the `re.search` test of every configured pattern. -/
theorem get_tables_excludes (catalog : List CatalogRow) (n : String)
    (h : n ∈ get_tables catalog) :
    matchesExclude n = false ∧
    ∀ p ∈ EXCLUDE_PATTERNS, p.data.isPrefixOf n.data = false := by
  have h1 : n ∈ (catalog.map qualifiedName).filter (fun s => !matchesExclude s) := by
    simpa [get_tables, List.mem_insertionSort] using h
  have h3 : matchesExclude n = false := by
    simpa using (List.mem_filter.mp h1).2
  refine ⟨h3, ?_⟩
  intro p hp
  cases hb : p.data.isPrefixOf n.data
  · rfl
  · exfalso
    have hm : matchesExclude n = true := by
      simp only [matchesExclude, List.any_eq_true]
      exact ⟨p, hp, hb⟩
    rw [h3] at hm
    exact Bool.false_ne_true hm

/-- Witness for C7 at the spec's scenario catalog: `orders` is returned and
matches no exclude pattern (while `pg_stat` and `auth.users` are filtered
out). -/
theorem get_tables_excludes_witness :
    ("orders" ∈ get_tables [⟨"public", "pg_stat"⟩, ⟨"auth", "users"⟩,
      ⟨"public", "orders"⟩, ⟨"public", "profiles"⟩]) ∧
    matchesExclude "orders" = false :=
  ⟨by decide,
   (get_tables_excludes [⟨"public", "pg_stat"⟩, ⟨"auth", "users"⟩,
      ⟨"public", "orders"⟩, ⟨"public", "profiles"⟩] "orders" (by decide)).1⟩

/-- C8 (amended): the output of `get_tables` is lexicographically sorted in
ascending order for any input catalog, and it has no duplicates provided the
catalog rows yield pairwise-distinct qualified names — the function itself
performs no deduplication. -/
theorem get_tables_sorted_nodup (catalog : List CatalogRow) :
    List.Sorted strLe (get_tables catalog) ∧
    ((catalog.map qualifiedName).Nodup → (get_tables catalog).Nodup) := by
  constructor
  · exact List.sorted_insertionSort strLe _
  · intro hnd
    exact ((List.perm_insertionSort strLe _).nodup_iff).mpr (hnd.filter _)

/-- Witness for C8 on a duplicate-free catalog. -/
theorem get_tables_sorted_nodup_witness :
    List.Sorted strLe (get_tables [⟨"public", "b"⟩, ⟨"public", "a"⟩]) ∧
    (get_tables [⟨"public", "b"⟩, ⟨"public", "a"⟩]).Nodup :=
  ⟨(get_tables_sorted_nodup _).1, (get_tables_sorted_nodup _).2 (by decide)⟩

/-- Counterexample to C8 as stated: a catalog that reports the same table
twice makes `get_tables` return a list with a duplicate — `sorted(tables)`
does not deduplicate. -/
theorem get_tables_duplicate_counterexample :
    get_tables [⟨"public", "a"⟩, ⟨"public", "a"⟩] = ["a", "a"] ∧
    ¬ (get_tables [⟨"public", "a"⟩, ⟨"public", "a"⟩]).Nodup := by
  exact ⟨by decide, by decide⟩

/-- Unfolding of `migrateLoop` on an exhausted cursor: the empty page is
fetched once and the loop stops. -/
theorem migrateLoop_nil {α : Type} (ok : α → Bool) (start : Nat) :
    migrateLoop ok ([] : List α) start =
      { fetchRanges := [(start, start + pageSize - 1)],
        attempted := 0, inserted := 0, failures := [] } := by
  rw [migrateLoop]
  simp

/-- Unfolding of `migrateLoop` when rows remain: the page is processed and
the loop recurses at the advanced cursor. -/
theorem migrateLoop_cons {α : Type} (ok : α → Bool) (rest : List α)
    (start : Nat) (hne : rest ≠ []) :
    migrateLoop ok rest start =
      { fetchRanges := (start, start + pageSize - 1) ::
          (migrateLoop ok (rest.drop pageSize) (start + pageSize)).fetchRanges,
        attempted := (rest.take pageSize).length +
          (migrateLoop ok (rest.drop pageSize) (start + pageSize)).attempted,
        inserted := ((rest.take pageSize).filter ok).length +
          (migrateLoop ok (rest.drop pageSize) (start + pageSize)).inserted,
        failures := (rest.take pageSize).filter (fun r => !ok r) ++
          (migrateLoop ok (rest.drop pageSize) (start + pageSize)).failures } := by
  have hnem : ¬ (rest.take pageSize).isEmpty = true := by
    simp [List.isEmpty_eq_true, List.take_eq_nil_iff, pageSize, hne]
  rw [migrateLoop, dif_neg hnem]

/-- Advancing one page adds one fetch: the arithmetic behind the fetch
count `(R + pageSize - 1) / pageSize + 1`. -/
theorem fetch_div_step (R : Nat) (hR : 1 ≤ R) :
    (R + pageSize - 1) / pageSize = (R - pageSize + pageSize - 1) / pageSize + 1 := by
  simp only [pageSize]
  have h1 : R + 1000 - 1 = (R - 1) + 1000 := by omega
  rw [h1, Nat.add_div_right _ (by norm_num)]
  by_cases hc : 1000 ≤ R
  · have h2 : R - 1000 + 1000 - 1 = R - 1 := by omega
    rw [h2]
  · have h2 : R - 1000 = 0 := by omega
    have h3 : (R - 1) / 1000 = 0 := Nat.div_eq_of_lt (by omega)
    rw [h2, h3]

/-- Loop invariant of `migrateLoop`: starting anywhere, the loop attempts an
insert for every remaining row, the successes are exactly the rows accepted
by the oracle, the failures are exactly the rejected rows in order, and the
requested ranges are the consecutive inclusive ranges of width `pageSize`
from the cursor, `(R + pageSize - 1) / pageSize + 1` of them for `R`
remaining rows (the final fetch returning the empty page). -/
theorem migrateLoop_spec {α : Type} (ok : α → Bool) :
    ∀ (n : Nat) (rest : List α), rest.length ≤ n → ∀ (start : Nat),
      (migrateLoop ok rest start).attempted = rest.length ∧
      (migrateLoop ok rest start).inserted = (rest.filter ok).length ∧
      (migrateLoop ok rest start).failures = rest.filter (fun r => !ok r) ∧
      (migrateLoop ok rest start).fetchRanges =
        (List.range ((rest.length + pageSize - 1) / pageSize + 1)).map
          (fun i => (start + pageSize * i, start + pageSize * i + pageSize - 1)) := by
  intro n
  induction n with
  | zero =>
    intro rest hle start
    have hr : rest = [] := List.length_eq_zero.mp (Nat.le_zero.mp hle)
    subst hr
    rw [migrateLoop_nil]
    refine ⟨rfl, rfl, rfl, ?_⟩
    have h1 : List.range 1 = [0] := by decide
    simp [pageSize, h1]
  | succ n ih =>
    intro rest hle start
    by_cases hr : rest = []
    · subst hr
      rw [migrateLoop_nil]
      refine ⟨rfl, rfl, rfl, ?_⟩
      have h1 : List.range 1 = [0] := by decide
      simp [pageSize, h1]
    · have hlen : 1 ≤ rest.length := List.length_pos.mpr hr
      have hdlen : (rest.drop pageSize).length ≤ n := by
        rw [List.length_drop]
        simp only [pageSize] at *
        omega
      obtain ⟨iha, ihi, ihf, ihr⟩ := ih (rest.drop pageSize) hdlen (start + pageSize)
      rw [migrateLoop_cons ok rest start hr]
      refine ⟨?_, ?_, ?_, ?_⟩
      · dsimp only
        rw [iha, List.length_take, List.length_drop]
        simp only [pageSize]
        omega
      · dsimp only
        rw [ihi]
        conv_rhs => rw [← List.take_append_drop pageSize rest]
        rw [List.filter_append, List.length_append]
      · dsimp only
        rw [ihf]
        conv_rhs => rw [← List.take_append_drop pageSize rest]
        rw [List.filter_append]
      · dsimp only
        rw [ihr, List.length_drop]
        conv_rhs => rw [fetch_div_step rest.length hlen, List.range_succ_eq_map]
        rw [List.map_cons, List.map_map, List.cons.injEq]
        constructor
        · simp
        · apply List.map_congr_left
          intro i _
          simp only [Function.comp_apply, Prod.mk.injEq, pageSize,
            Nat.succ_eq_add_one]
          omega

/-- C1 (amended): for every source table, `migrate_table` fetches the
consecutive inclusive ranges of width `pageSize` starting at 0 and attempts
an insert for every row; it terminates only when a fetched page is empty — a
short non-empty last page does not stop the loop — so for `R` rows it issues
`(R + pageSize - 1) / pageSize + 1` fetches, i.e. `ceil(R / pageSize)` pages
with data plus one final fetch that returns the empty page. -/
theorem migrate_table_pagination {α : Type} (src : List α) (ok : α → Bool) :
    (migrate_table ok src).attempted = src.length ∧
    (migrate_table ok src).fetchRanges =
      (List.range ((src.length + pageSize - 1) / pageSize + 1)).map
        (fun i => (pageSize * i, pageSize * i + pageSize - 1)) := by
  obtain ⟨ha, _, _, hrg⟩ := migrateLoop_spec ok src.length src le_rfl 0
  have e : migrate_table ok src = migrateLoop ok src 0 := rfl
  refine ⟨by rw [e, ha], ?_⟩
  rw [e, hrg]
  apply List.map_congr_left
  intro i _
  simp

/-- Counterexample to C1 as stated: on a 2500-row table `migrate_table`
issues four fetches `[0,999], [1000,1999], [2000,2999], [3000,3999]` — not
the claimed three ranges ending at the short page — because the loop only
stops after fetching an additional empty page.  It does attempt all 2500
inserts. -/
theorem migrate_table_fetches_counterexample :
    (migrate_table (fun _ => true) (List.replicate 2500 (0 : Nat))).fetchRanges =
      [(0, 999), (1000, 1999), (2000, 2999), (3000, 3999)] ∧
    (migrate_table (fun _ => true) (List.replicate 2500 (0 : Nat))).fetchRanges.length ≠ 3 ∧
    (migrate_table (fun _ => true) (List.replicate 2500 (0 : Nat))).attempted = 2500 := by
  obtain ⟨ha, _, _, hrg⟩ := migrateLoop_spec (fun _ : Nat => true) 2500
    (List.replicate 2500 (0 : Nat)) (le_of_eq (List.length_replicate 2500 0)) 0
  have e : migrate_table (fun _ : Nat => true) (List.replicate 2500 (0 : Nat)) =
      migrateLoop (fun _ : Nat => true) (List.replicate 2500 (0 : Nat)) 0 := rfl
  refine ⟨?_, ?_, ?_⟩
  · rw [e, hrg]
    simp only [List.length_replicate]
    decide
  · rw [e, hrg]
    simp only [List.length_replicate]
    decide
  · rw [e, ha]
    rw [List.length_replicate]

/-- C4: a failing row insert does not stop `migrate_table` — an insert call
is attempted for every row of every fetched page whatever the failure
oracle — each failure is recorded, and
`inserted + len(failures) = attempted`. -/
theorem migrate_table_partial_failure {α : Type} (src : List α) (ok : α → Bool) :
    (migrate_table ok src).attempted = src.length ∧
    (migrate_table ok src).inserted + (migrate_table ok src).failures.length =
      (migrate_table ok src).attempted ∧
    (migrate_table ok src).failures = src.filter (fun r => !ok r) := by
  obtain ⟨ha, hi, hf, _⟩ := migrateLoop_spec ok src.length src le_rfl 0
  have e : migrate_table ok src = migrateLoop ok src 0 := rfl
  refine ⟨by rw [e, ha], ?_, by rw [e, hf]⟩
  rw [e, ha, hi, hf]
  exact (List.length_eq_length_filter_add ok).symm

/-- C2: if the confirmation answer is not affirmative (its
`strip().lower()` is not `'y'`), `migrate_all_tables` returns failure and
performs zero insert calls — the target store is not mutated — whatever the
table list and per-table behaviour. -/
theorem migrate_all_tables_confirmation_gate (run : String → TableOutcome)
    (tables : List String) (confirm : String)
    (h : isAffirmative confirm = false) :
    (migrate_all_tables run tables confirm).success = false ∧
    (migrate_all_tables run tables confirm).insertCalls = 0 ∧
    (migrate_all_tables run tables confirm).rowsInserted = 0 := by
  unfold migrate_all_tables
  by_cases he : tables.isEmpty
  · simp [he]
  · simp [he, h]

/-- Witness for C2: answering `n` aborts the run with no insert calls. -/
theorem migrate_all_tables_confirmation_gate_witness :
    isAffirmative "n" = false ∧
    (migrate_all_tables (fun _ => TableOutcome.ok ⟨[], 0, 0, []⟩)
      ["users"] "n").success = false ∧
    (migrate_all_tables (fun _ => TableOutcome.ok ⟨[], 0, 0, []⟩)
      ["users"] "n").insertCalls = 0 :=
  ⟨by decide,
   (migrate_all_tables_confirmation_gate _ ["users"] "n" (by decide)).1,
   (migrate_all_tables_confirmation_gate _ ["users"] "n" (by decide)).2.1⟩

/-- C9: once confirmed, a per-table failure does not stop
`migrate_all_tables`: a copy is started for every table of a non-empty list
whatever each table's outcome (including table-level exceptions), the
completion line is printed unconditionally at the end, and the call reports
success. -/
theorem migrate_all_tables_error_isolation (run : String → TableOutcome)
    (tables : List String) (confirm : String)
    (hne : tables ≠ []) (hok : isAffirmative confirm = true) :
    (migrate_all_tables run tables confirm).tablesAttempted = tables ∧
    (migrate_all_tables run tables confirm).completionReported = true ∧
    (migrate_all_tables run tables confirm).success = true := by
  have he : tables.isEmpty = false := by
    cases tables with
    | nil => exact absurd rfl hne
    | cons a l => rfl
  unfold migrate_all_tables
  simp [he, hok]

/-- Witness for C9: both tables fail with an exception, yet both are
attempted, completion is reported and the call returns `True`. -/
theorem migrate_all_tables_error_isolation_witness :
    (["a", "b"] : List String) ≠ [] ∧ isAffirmative "y" = true ∧
    (migrate_all_tables (fun _ => TableOutcome.err "boom" ⟨[], 0, 0, []⟩)
      ["a", "b"] "y").tablesAttempted = ["a", "b"] ∧
    (migrate_all_tables (fun _ => TableOutcome.err "boom" ⟨[], 0, 0, []⟩)
      ["a", "b"] "y").completionReported = true :=
  ⟨by decide, by decide,
   (migrate_all_tables_error_isolation _ ["a", "b"] "y" (by decide) (by decide)).1,
   (migrate_all_tables_error_isolation _ ["a", "b"] "y" (by decide) (by decide)).2.1⟩

/-- C3 (code bug): the counting loop of `list_tables_with_counts` stops at
the first empty page, not after three consecutive empty pages: the
`len(rows) < batch_size` break also fires on an empty page, so the
`max_empty_batches` fail-safe never allows a continuation.  On a source whose
first page is empty but whose second page has a row, the loop issues a single
fetch and returns 0; on an all-empty source it likewise stops after one
fetch, not three. -/
theorem count_loop_stops_on_first_empty_page :
    countRowsPaginated (fun i => if i = 0 then ([] : List Nat) else [7]) 10 =
      some (0, 1) ∧
    countRowsPaginated (fun _ => ([] : List Nat)) 10 = some (0, 1) :=
  ⟨rfl, rfl⟩

end Migration
